import Mathlib

/-!
Verification of the Health AI Dataset Analyzer (src/dataset_analyzer.py).

The script loads a CSV table of health records, enriches it with derived
columns, and prints statistical reports.  We embed the data model and the
operations the claims refer to as executable Lean definitions.  Python
floats are modelled as exact rationals; machinery the script delegates to
libraries is modelled at its interface: the timestamp parser is an
explicit argument of the pipeline, the pandas correlation matrix is an
explicit symmetric-matrix argument of the reporting loop, and json.loads
is modelled by a concrete decoder of the symptom schema (a JSON array of
string literals), any other input decoding to none exactly as the
bare except of the source maps every decode failure to an empty list.
-/

/-- A raw row of the dataset, with the ten original input columns of
src/dataset_analyzer.py (userId, timestamp, symptoms, severity, sleep,
stress, exercise, age, gender, medical_history). -/
structure Record where
  userId : String
  timestamp : String
  symptoms : String
  severity : ℚ
  sleep : ℚ
  stress : ℚ
  exercise : ℚ
  age : ℚ
  gender : String
  medical_history : String
deriving Repr, DecidableEq

/-! ### Safe symptom decoding (_parse_symptoms, lines 46-51)

json.loads applied to a symptoms field; the dataset schema makes that
field a JSON array of string literals.  The decoder returns none on any
input that is not such an array, and the wrapper maps none to the empty
list, mirroring the try/except that returns [] on a decode failure. -/

/-- Consume leading JSON whitespace. -/
def skipWs : List Char → List Char
  | [] => []
  | c :: cs => if c = ' ' ∨ c = '\t' ∨ c = '\n' ∨ c = '\r' then skipWs cs else c :: cs

/-- Translate a backslash escape character inside a JSON string literal. -/
def escChar (d : Char) : Char :=
  if d = 'n' then '\n' else if d = 't' then '\t' else if d = 'r' then '\r' else d

/-- Consume the body of a JSON string literal after its opening quote,
returning the decoded characters and the input after the closing quote. -/
def parseStrChars : List Char → Option (List Char × List Char)
  | [] => none
  | '"' :: cs => some ([], cs)
  | '\\' :: [] => none
  | '\\' :: d :: ds => (parseStrChars ds).map (fun p => (escChar d :: p.1, p.2))
  | c :: cs => (parseStrChars cs).map (fun p => (c :: p.1, p.2))

/-- Consume a nonempty comma-separated sequence of JSON string literals
followed by the closing bracket and the end of input.  The fuel argument
bounds the recursion by the input length. -/
def parseItems : ℕ → List Char → Option (List String)
  | 0, _ => none
  | fuel + 1, '"' :: rest =>
    (match parseStrChars rest with
     | none => none
     | some (chars, rest2) =>
       match skipWs rest2 with
       | ',' :: rest3 =>
         (match parseItems fuel (skipWs rest3) with
          | none => none
          | some ss => some (String.mk chars :: ss))
       | ']' :: rest3 => if skipWs rest3 = [] then some [String.mk chars] else none
       | _ => none)
  | _ + 1, _ => none

/-- Decode a JSON array of string literals; none on any other input. -/
def jsonLoadsList (s : String) : Option (List String) :=
  match skipWs s.toList with
  | '[' :: rest =>
    (match skipWs rest with
     | ']' :: tail => if skipWs tail = [] then some [] else none
     | cs => parseItems (s.length + 1) cs)
  | _ => none

/-- Lines 46-51 of the source: _parse_symptoms returns the decoded list,
or the empty list when decoding fails.  It is a total function: no
exception escapes it. -/
def parse_symptoms (s : String) : List String :=
  (jsonLoadsList s).getD []

/-- The structured date-time produced by pd.to_datetime, reduced to the
three projections the script reads from it (lines 147-149). -/
structure Timestamp where
  hour : ℕ
  dayName : String
  month : ℕ
deriving Repr, DecidableEq

/-- A table row after loading: the original record plus the derived
columns.  Columns added by later reporters start absent (none). -/
structure ERecord where
  base : Record
  symptoms_parsed : List String
  symptom_count : ℕ
  timestamp_parsed : Timestamp
  age_group : Option (Option String) := none
  hour : Option ℕ := none
  day_of_week : Option String := none
  month : Option ℕ := none
deriving Repr, DecidableEq

/-- Lines 31-35 of the source: enrich one record with symptoms_parsed,
symptom_count and timestamp_parsed.  The timestamp parser pt stands for
pd.to_datetime. -/
def enrichOne (pt : String → Timestamp) (r : Record) : ERecord :=
  { base := r
    symptoms_parsed := parse_symptoms r.symptoms
    symptom_count := (parse_symptoms r.symptoms).length
    timestamp_parsed := pt r.timestamp }

/-- Lines 24-44 of the source: load the table and run the enrichment
pass over every record. -/
def load_dataset (pt : String → Timestamp) (recs : List Record) : List ERecord :=
  recs.map (enrichOne pt)

/-! ### Age bucketing (analyze_demographics, lines 95-97)

pd.cut(self.df[age], bins=age_bins, labels=age_labels, right=False)
assigns x the label of the first interval [bins[i], bins[i+1]) containing
x, and NaN (here none) when x lies in no interval. -/

/-- pd.cut with right=False: right-open bins built from consecutive edge
pairs; a value outside every bin gets none (NaN in pandas). -/
def cut (bins : List ℚ) (labels : List String) (x : ℚ) : Option String :=
  match bins, labels with
  | lo :: hi :: bs, l :: ls =>
      if lo ≤ x ∧ x < hi then some l else cut (hi :: bs) ls x
  | _, _ => none

/-- Line 95 of the source: the fixed bin edges. -/
def age_bins : List ℚ := [0, 25, 35, 45, 55, 65, 100]

/-- Line 96 of the source: the fixed bin labels. -/
def age_labels : List String := ["16-25", "26-35", "36-45", "46-55", "56-65", "65+"]

/-- Line 97 of the source: the age_group derived column for one age. -/
def age_group (a : ℚ) : Option String :=
  cut age_bins age_labels a

/-- Line 97 of the source: the assignment adding the age_group column to
the whole table. -/
def add_age_group (df : List ERecord) : List ERecord :=
  df.map fun er => { er with age_group := some (age_group er.base.age) }

/-- Lines 110-111 of the source: the count med_hist_dist.get(none, 0) of
records whose medical_history is the literal sentinel string none. -/
def med_hist_none_count (df : List ERecord) : ℕ :=
  (df.filter fun er => er.base.medical_history == "none").length

/-- Lines 111-112 of the source: the two medical-history percentages.
Both divide plain Python ints by len(self.df), which raises
ZeroDivisionError (modelled as none) when the table is empty. -/
def med_hist_pcts (df : List ERecord) : Option (ℚ × ℚ) :=
  if df.length = 0 then none
  else
    some ((med_hist_none_count df : ℚ) / df.length * 100,
      ((df.length - med_hist_none_count df : ℕ) : ℚ) / df.length * 100)

/-- Lines 88-119 of the source: the demographics reporter adds the
age_group column, then computes its distributions; the medical-history
percentage computation is the one step that can raise.  The age-group
and gender percentage loops divide numpy scalars, which yield NaN rather
than raising, and the gender loop runs zero iterations on an empty
table, so they are not failure points and are not modelled as such. -/
def analyze_demographics (df : List ERecord) : Option (List ERecord) :=
  match med_hist_pcts (add_age_group df) with
  | none => none
  | some _ => some (add_age_group df)

/-- Lines 147-149 of the source: the temporal reporter adds the hour,
day_of_week and month columns derived from timestamp_parsed. -/
def analyze_temporal_patterns (df : List ERecord) : List ERecord :=
  df.map fun er =>
    { er with
      hour := some er.timestamp_parsed.hour
      day_of_week := some er.timestamp_parsed.dayName
      month := some er.timestamp_parsed.month }

/-- The derived feature vector of one record (lines 195-207 of the
source): the six base features plus the three engineered ones. -/
structure FeatureRow where
  severity : ℚ
  sleep : ℚ
  stress : ℚ
  exercise : ℚ
  symptom_count : ℚ
  age : ℚ
  sleep_stress_ratio : ℚ
  exercise_severity_ratio : ℚ
  lifestyle_score : ℚ
deriving Repr, DecidableEq

/-- Lines 195-207 of the source: one row of features_df. -/
def featureRowOf (er : ERecord) : FeatureRow :=
  { severity := er.base.severity
    sleep := er.base.sleep
    stress := er.base.stress
    exercise := er.base.exercise
    symptom_count := (er.symptom_count : ℚ)
    age := er.base.age
    sleep_stress_ratio := er.base.sleep / (er.base.stress + 0.1)
    exercise_severity_ratio := er.base.exercise / (er.base.severity + 0.1)
    lifestyle_score := (er.base.sleep + er.base.exercise / 10 - er.base.stress) / 3 }

/-- Lines 189-225 of the source: features_df, one feature row per
record. -/
def analyze_clustering_features (df : List ERecord) : List FeatureRow :=
  df.map featureRowOf

/-- Line 127 of the source: the six columns of the correlation matrix,
in source order. -/
def corr_features : List String :=
  ["severity", "sleep", "stress", "exercise", "age", "symptom_count"]

/-- Lines 130-137 of the source: the reporting loop over the correlation
matrix c (computed by pandas, passed in here): for every i and every
j > i, report the pair when the absolute correlation exceeds 0.3. -/
def analyze_correlations (c : Fin 6 → Fin 6 → ℚ) : List (Fin 6 × Fin 6) :=
  ((List.finRange 6).map (fun i =>
    ((List.finRange 6).filter
        (fun j => decide (i < j) && decide ((0.3 : ℚ) < |c i j|))).map
      (fun j => (i, j)))).flatten

/-- Index into a column with default 0; the index is always in range at
the call sites used here. -/
def nth : List ℚ → ℕ → ℚ
  | [], _ => 0
  | x :: _, 0 => x
  | _ :: xs, i + 1 => nth xs i

/-- Insert into a sorted list, keeping it sorted ascending. -/
def insertSorted (x : ℚ) : List ℚ → List ℚ
  | [] => [x]
  | y :: ys => if x ≤ y then x :: y :: ys else y :: insertSorted x ys

/-- Sort a column ascending. -/
def sortAsc (xs : List ℚ) : List ℚ :=
  xs.foldr insertSorted []

/-- The pandas Series.quantile with the default linear interpolation:
with s the sorted column of length n and h = q * (n - 1), the result is
s[floor h] + (h - floor h) * (s[floor h + 1] - s[floor h]). -/
def quantile (xs : List ℚ) (q : ℚ) : ℚ :=
  let s := sortAsc xs
  let n := s.length
  if n = 0 then 0
  else
    let h := q * ((n : ℚ) - 1)
    let i := (⌊h⌋).toNat
    let g := h - (i : ℚ)
    let lo := nth s i
    let hi := nth s (i + 1)
    lo + g * (hi - lo)

/-- Lines 259-263 of the source: the Tukey fence test for one value of a
column, with Q1 and Q3 the 25th and 75th percentiles. -/
def isOutlier (xs : List ℚ) (v : ℚ) : Bool :=
  let q1 := quantile xs 0.25
  let q3 := quantile xs 0.75
  let iqr := q3 - q1
  decide (v < q1 - 1.5 * iqr) || decide (q3 + 1.5 * iqr < v)

/-- Lines 262-264 of the source: the per-column outlier count. -/
def outlier_count (xs : List ℚ) : ℕ :=
  (xs.filter (fun v => isOutlier xs v)).length

/-- Line 234 of the source: the lower end of the recommended K range,
max(2, int(np.sqrt(n_samples / 2))).  For a natural n, the float
square-root-and-truncate equals Nat.sqrt (n / 2) with natural division;
the bridge is proved in nat_floor_sqrt_half_eq below. -/
def k_min (n : ℕ) : ℕ := max 2 (Nat.sqrt (n / 2))

/-- Line 235 of the source: the upper end of the recommended K range,
min(10, int(np.sqrt(n_samples))). -/
def k_max (n : ℕ) : ℕ := min 10 (Nat.sqrt n)

/-- Lines 53-86 of the source: the basic-statistics reporter.  It adds
no columns.  Its one failure point is line 66: a zero-record table can
only come from a header-only CSV, whose columns pandas loads with
object dtype, and describe() of an empty object-dtype column returns
only count/unique/top/freq, so reading the mean entry raises KeyError;
on a nonempty table of the numeric schema describe() carries the mean
and the reporter succeeds (the symptom and Counter sections never
raise on nonempty input). -/
def analyze_basic_statistics (df : List ERecord) : Option (List ERecord) :=
  if df.length = 0 then none else some df

/-- The pipeline stage at which a report run raises. -/
inductive AbortStage where
  | basicStatistics
  | demographics
deriving Repr, DecidableEq

/-- Lines 283-295 of the source: the report runs the reporters in order
over the same table.  analyze_basic_statistics runs first (line 290)
and can raise; the demographics reporter runs second, mutates the table
(age_group) and can raise; the temporal reporter mutates the table
(hour, day_of_week, month).  The remaining reporters (correlations,
clustering features, recommendations) neither mutate the table nor
raise on the nonempty tables that reach them, so they are identity
steps here.  A raising reporter aborts the whole report (none). -/
def generate_report (pt : String → Timestamp) (recs : List Record) :
    Option (List ERecord) :=
  match analyze_basic_statistics (load_dataset pt recs) with
  | none => none
  | some df0 =>
    (match analyze_demographics df0 with
     | none => none
     | some df1 => some (analyze_temporal_patterns df1))

/-- The stage at which a report run aborts, none for a successful run:
the first raising reporter in source order wins. -/
def report_abort (pt : String → Timestamp) (recs : List Record) :
    Option AbortStage :=
  match analyze_basic_statistics (load_dataset pt recs) with
  | none => some AbortStage.basicStatistics
  | some df0 =>
    (match analyze_demographics df0 with
     | none => some AbortStage.demographics
     | some _ => none)

/-! ### Concrete fixtures used by witnesses and counterexamples -/

/-- A fixed stand-in timestamp parser for concrete runs. -/
def pt0 : String → Timestamp := fun _ => { hour := 9, dayName := "Monday", month := 3 }

/-- A concrete healthy record: sleep 8, exercise 30, stress 4. -/
def rec0 : Record :=
  { userId := "u1"
    timestamp := "2024-03-04T09:00:00"
    symptoms := "[\"headache\", \"fever\"]"
    severity := 5
    sleep := 8
    stress := 4
    exercise := 30
    age := 30
    gender := "female"
    medical_history := "none" }

/-- A record whose stress is the float -0.1: the one value at which the
0.1 offset fails to move the denominator away from zero. -/
def rec_neg_stress : Record := { rec0 with stress := -0.1 }

/-- A concrete symmetric correlation matrix: 1 on the diagonal, 2 off
it (every off-diagonal absolute value exceeds 0.3). -/
def cEx : Fin 6 → Fin 6 → ℚ := fun i j => if i = j then 1 else 2

/-- The concrete column of the outlier test of the spec. -/
def colEx : List ℚ := [1, 2, 2, 3, 3, 3, 4, 4, 100]

/-- The table produced by a successful report run on the one-record
dataset [rec0]. -/
def out0 : List ERecord :=
  analyze_temporal_patterns (add_age_group (load_dataset pt0 [rec0]))

/-! ## Theorems -/

/-- C2: age bucketing uses the six right-open bins [0,25), [25,35),
[35,45), [45,55), [55,65), [65,100) with labels 16-25 through 65+; age
24 lands in 16-25, age 25 in 26-35, age 99 in 65+, and age 100 in no
bin. -/
theorem age_bucketing_spec :
    age_group 24 = some "16-25" ∧ age_group 25 = some "26-35" ∧
    age_group 99 = some "65+" ∧ age_group 100 = none ∧
    ∀ a : ℚ,
      (age_group a = some "16-25" ↔ 0 ≤ a ∧ a < 25) ∧
      (age_group a = some "26-35" ↔ 25 ≤ a ∧ a < 35) ∧
      (age_group a = some "36-45" ↔ 35 ≤ a ∧ a < 45) ∧
      (age_group a = some "46-55" ↔ 45 ≤ a ∧ a < 55) ∧
      (age_group a = some "56-65" ↔ 55 ≤ a ∧ a < 65) ∧
      (age_group a = some "65+" ↔ 65 ≤ a ∧ a < 100) ∧
      (age_group a = none ↔ a < 0 ∨ 100 ≤ a) := by
  refine ⟨by decide, by decide, by decide, by decide, fun a => ?_⟩
  simp only [age_group, age_bins, age_labels, cut]
  split_ifs with h1 h2 h3 h4 h5 h6
  · obtain ⟨ha, hb⟩ := h1
    exact ⟨⟨fun _ => ⟨ha, hb⟩, fun _ => rfl⟩,
      ⟨fun h => absurd h (by decide), fun h => ((by linarith [h.1, h.2] : False)).elim⟩,
      ⟨fun h => absurd h (by decide), fun h => ((by linarith [h.1, h.2] : False)).elim⟩,
      ⟨fun h => absurd h (by decide), fun h => ((by linarith [h.1, h.2] : False)).elim⟩,
      ⟨fun h => absurd h (by decide), fun h => ((by linarith [h.1, h.2] : False)).elim⟩,
      ⟨fun h => absurd h (by decide), fun h => ((by linarith [h.1, h.2] : False)).elim⟩,
      ⟨fun h => absurd h (by decide),
        fun h => ((by rcases h with h | h <;> linarith : False)).elim⟩⟩
  · obtain ⟨ha, hb⟩ := h2
    exact ⟨⟨fun h => absurd h (by decide), fun h => ((by linarith [h.1, h.2] : False)).elim⟩,
      ⟨fun _ => ⟨ha, hb⟩, fun _ => rfl⟩,
      ⟨fun h => absurd h (by decide), fun h => ((by linarith [h.1, h.2] : False)).elim⟩,
      ⟨fun h => absurd h (by decide), fun h => ((by linarith [h.1, h.2] : False)).elim⟩,
      ⟨fun h => absurd h (by decide), fun h => ((by linarith [h.1, h.2] : False)).elim⟩,
      ⟨fun h => absurd h (by decide), fun h => ((by linarith [h.1, h.2] : False)).elim⟩,
      ⟨fun h => absurd h (by decide),
        fun h => ((by rcases h with h | h <;> linarith : False)).elim⟩⟩
  · obtain ⟨ha, hb⟩ := h3
    exact ⟨⟨fun h => absurd h (by decide), fun h => ((by linarith [h.1, h.2] : False)).elim⟩,
      ⟨fun h => absurd h (by decide), fun h => ((by linarith [h.1, h.2] : False)).elim⟩,
      ⟨fun _ => ⟨ha, hb⟩, fun _ => rfl⟩,
      ⟨fun h => absurd h (by decide), fun h => ((by linarith [h.1, h.2] : False)).elim⟩,
      ⟨fun h => absurd h (by decide), fun h => ((by linarith [h.1, h.2] : False)).elim⟩,
      ⟨fun h => absurd h (by decide), fun h => ((by linarith [h.1, h.2] : False)).elim⟩,
      ⟨fun h => absurd h (by decide),
        fun h => ((by rcases h with h | h <;> linarith : False)).elim⟩⟩
  · obtain ⟨ha, hb⟩ := h4
    exact ⟨⟨fun h => absurd h (by decide), fun h => ((by linarith [h.1, h.2] : False)).elim⟩,
      ⟨fun h => absurd h (by decide), fun h => ((by linarith [h.1, h.2] : False)).elim⟩,
      ⟨fun h => absurd h (by decide), fun h => ((by linarith [h.1, h.2] : False)).elim⟩,
      ⟨fun _ => ⟨ha, hb⟩, fun _ => rfl⟩,
      ⟨fun h => absurd h (by decide), fun h => ((by linarith [h.1, h.2] : False)).elim⟩,
      ⟨fun h => absurd h (by decide), fun h => ((by linarith [h.1, h.2] : False)).elim⟩,
      ⟨fun h => absurd h (by decide),
        fun h => ((by rcases h with h | h <;> linarith : False)).elim⟩⟩
  · obtain ⟨ha, hb⟩ := h5
    exact ⟨⟨fun h => absurd h (by decide), fun h => ((by linarith [h.1, h.2] : False)).elim⟩,
      ⟨fun h => absurd h (by decide), fun h => ((by linarith [h.1, h.2] : False)).elim⟩,
      ⟨fun h => absurd h (by decide), fun h => ((by linarith [h.1, h.2] : False)).elim⟩,
      ⟨fun h => absurd h (by decide), fun h => ((by linarith [h.1, h.2] : False)).elim⟩,
      ⟨fun _ => ⟨ha, hb⟩, fun _ => rfl⟩,
      ⟨fun h => absurd h (by decide), fun h => ((by linarith [h.1, h.2] : False)).elim⟩,
      ⟨fun h => absurd h (by decide),
        fun h => ((by rcases h with h | h <;> linarith : False)).elim⟩⟩
  · obtain ⟨ha, hb⟩ := h6
    exact ⟨⟨fun h => absurd h (by decide), fun h => ((by linarith [h.1, h.2] : False)).elim⟩,
      ⟨fun h => absurd h (by decide), fun h => ((by linarith [h.1, h.2] : False)).elim⟩,
      ⟨fun h => absurd h (by decide), fun h => ((by linarith [h.1, h.2] : False)).elim⟩,
      ⟨fun h => absurd h (by decide), fun h => ((by linarith [h.1, h.2] : False)).elim⟩,
      ⟨fun h => absurd h (by decide), fun h => ((by linarith [h.1, h.2] : False)).elim⟩,
      ⟨fun _ => ⟨ha, hb⟩, fun _ => rfl⟩,
      ⟨fun h => absurd h (by decide),
        fun h => ((by rcases h with h | h <;> linarith : False)).elim⟩⟩
  · refine ⟨⟨fun h => absurd h (by decide), fun h => absurd h h1⟩,
      ⟨fun h => absurd h (by decide), fun h => absurd h h2⟩,
      ⟨fun h => absurd h (by decide), fun h => absurd h h3⟩,
      ⟨fun h => absurd h (by decide), fun h => absurd h h4⟩,
      ⟨fun h => absurd h (by decide), fun h => absurd h h5⟩,
      ⟨fun h => absurd h (by decide), fun h => absurd h h6⟩,
      ⟨fun _ => ?_, fun _ => rfl⟩⟩
    by_cases hneg : a < 0
    · exact Or.inl hneg
    · push_neg at hneg h1 h2 h3 h4 h5 h6
      exact Or.inr (h6 (h5 (h4 (h3 (h2 (h1 hneg))))))

/-- Floor of the real square root of n/2 (real division) equals the
natural square root of n / 2 (natural division): an integer square never
falls strictly between m and m + 1/2. -/
lemma nat_floor_sqrt_half_eq (n : ℕ) :
    ⌊Real.sqrt ((n : ℝ) / 2)⌋₊ = Nat.sqrt (n / 2) := by
  set m : ℕ := n / 2 with hm
  have hle : (2 * m : ℕ) ≤ n := by omega
  have hlt : n < 2 * m + 2 := by omega
  rw [Nat.floor_eq_iff (Real.sqrt_nonneg _)]
  constructor
  · calc ((Nat.sqrt m : ℕ) : ℝ) ≤ Real.sqrt (m : ℝ) := Real.nat_sqrt_le_real_sqrt
    _ ≤ Real.sqrt ((n : ℝ) / 2) := by
        apply Real.sqrt_le_sqrt
        have : ((2 * m : ℕ) : ℝ) ≤ (n : ℝ) := by exact_mod_cast hle
        push_cast at this
        linarith
  · have hnat : m + 1 ≤ (Nat.sqrt m + 1) ^ 2 := Nat.succ_le_succ_sqrt' m
    have hcast : (m : ℝ) + 1 ≤ ((Nat.sqrt m : ℝ) + 1) ^ 2 := by
      have := (Nat.cast_le (α := ℝ)).mpr hnat
      push_cast at this
      linarith
    have hhalf : (n : ℝ) / 2 < (m : ℝ) + 1 := by
      have : (n : ℝ) < ((2 * m + 2 : ℕ) : ℝ) := by exact_mod_cast hlt
      push_cast at this
      linarith
    have hpos : (0 : ℝ) < (Nat.sqrt m : ℝ) + 1 := by positivity
    rw [Real.sqrt_lt' hpos]
    linarith

/-- C5: the recommended range formulas of the source, with the float
square-root-and-truncate modelled exactly as floor of the real square
root, and the concrete values for a 100-sample dataset. -/
theorem k_range_spec :
    (∀ n : ℕ, k_min n = max 2 ⌊Real.sqrt ((n : ℝ) / 2)⌋₊ ∧
      k_max n = min 10 ⌊Real.sqrt ((n : ℝ))⌋₊) ∧
    k_min 100 = 7 ∧ k_max 100 = 10 := by
  have h50 : Nat.sqrt 50 = 7 := (Nat.eq_sqrt.mpr (by norm_num)).symm
  have h100 : Nat.sqrt 100 = 10 := by simpa using Nat.sqrt_eq 10
  refine ⟨fun n => ⟨?_, ?_⟩, ?_, ?_⟩
  · rw [nat_floor_sqrt_half_eq]; rfl
  · rw [Real.nat_floor_real_sqrt_eq_nat_sqrt]; rfl
  · show max 2 (Nat.sqrt (100 / 2)) = 7
    norm_num [h50]
  · show min 10 (Nat.sqrt 100) = 10
    norm_num [h100]

/-- C6: the recommended K range is nonempty exactly for sample counts
between 4 and 241: below 4 the upper end drops under the floor of 2, and
from 242 on the lower end exceeds the cap of 10. -/
theorem k_range_nonempty_iff (n : ℕ) :
    k_min n ≤ k_max n ↔ 4 ≤ n ∧ n ≤ 241 := by
  have hs3 : Nat.sqrt 3 = 1 := (Nat.eq_sqrt.mpr (by norm_num)).symm
  have hs120 : Nat.sqrt 120 = 10 := (Nat.eq_sqrt.mpr (by norm_num)).symm
  have hs121 : Nat.sqrt 121 = 11 := (Nat.eq_sqrt.mpr (by norm_num)).symm
  unfold k_min k_max
  constructor
  · intro h
    constructor
    · by_contra hlt
      have hn3 : n ≤ 3 := by omega
      have h1 : Nat.sqrt n ≤ 1 := hs3 ▸ Nat.sqrt_le_sqrt hn3
      have h2 : min 10 (Nat.sqrt n) ≤ 1 := le_trans (min_le_right _ _) h1
      have h3 : 2 ≤ max 2 (Nat.sqrt (n / 2)) := le_max_left _ _
      omega
    · by_contra hgt
      have h121 : (121 : ℕ) ≤ n / 2 := by omega
      have h11 : 11 ≤ Nat.sqrt (n / 2) := hs121 ▸ Nat.sqrt_le_sqrt h121
      have h2 : 11 ≤ max 2 (Nat.sqrt (n / 2)) := le_trans h11 (le_max_right _ _)
      have h3 : min 10 (Nat.sqrt n) ≤ 10 := min_le_left _ _
      omega
  · rintro ⟨h4, h241⟩
    apply max_le
    · apply le_min (by norm_num)
      exact Nat.le_sqrt.mpr (by omega)
    · apply le_min
      · have h120 : n / 2 ≤ 120 := by omega
        exact hs120 ▸ Nat.sqrt_le_sqrt h120
      · exact Nat.sqrt_le_sqrt (Nat.div_le_self n 2)

/-- Membership in the reported correlation list: exactly the pairs (i, j)
with i before j and absolute correlation above 0.3. -/
lemma mem_analyze_correlations (c : Fin 6 → Fin 6 → ℚ) (i j : Fin 6) :
    (i, j) ∈ analyze_correlations c ↔ i < j ∧ (0.3 : ℚ) < |c i j| := by
  unfold analyze_correlations
  rw [List.mem_flatten]
  constructor
  · rintro ⟨l, hl, hmem⟩
    rcases List.mem_map.mp hl with ⟨i1, -, rfl⟩
    rcases List.mem_map.mp hmem with ⟨j1, hj1, hpair⟩
    rcases List.mem_filter.mp hj1 with ⟨-, hcond⟩
    rw [Bool.and_eq_true, decide_eq_true_eq, decide_eq_true_eq] at hcond
    injection hpair with e1 e2
    subst e1; subst e2
    exact hcond
  · rintro ⟨hij, habs⟩
    refine ⟨((List.finRange 6).filter
        (fun j1 => decide (i < j1) && decide ((0.3 : ℚ) < |c i j1|))).map
      (fun j1 => (i, j1)), List.mem_map.mpr ⟨i, List.mem_finRange i, rfl⟩, ?_⟩
    refine List.mem_map.mpr ⟨j, List.mem_filter.mpr ⟨List.mem_finRange j, ?_⟩, rfl⟩
    rw [Bool.and_eq_true, decide_eq_true_eq, decide_eq_true_eq]
    exact ⟨hij, habs⟩

/-- C3: for a symmetric correlation matrix, a pair of features is
reported in some order if and only if the two features are distinct and
the absolute correlation exceeds 0.3, and the two orderings of a pair
are never both reported. -/
theorem correlation_report_spec (c : Fin 6 → Fin 6 → ℚ)
    (hsym : ∀ i j : Fin 6, c i j = c j i) (A B : Fin 6) :
    (((A, B) ∈ analyze_correlations c ∨ (B, A) ∈ analyze_correlations c) ↔
      (A ≠ B ∧ (0.3 : ℚ) < |c A B|)) ∧
    ¬ ((A, B) ∈ analyze_correlations c ∧ (B, A) ∈ analyze_correlations c) := by
  have hAB := mem_analyze_correlations c A B
  have hBA := mem_analyze_correlations c B A
  rw [hsym B A] at hBA
  constructor
  · rw [hAB, hBA]
    rcases lt_trichotomy A B with h | h | h
    · constructor
      · rintro (⟨-, h2⟩ | ⟨hBA1, -⟩)
        · exact ⟨ne_of_lt h, h2⟩
        · exact absurd hBA1 (asymm h)
      · rintro ⟨-, h2⟩
        exact Or.inl ⟨h, h2⟩
    · subst h
      constructor
      · rintro (⟨hlt, -⟩ | ⟨hlt, -⟩) <;> exact absurd hlt (lt_irrefl A)
      · rintro ⟨hne, -⟩
        exact absurd rfl hne
    · constructor
      · rintro (⟨hAB1, -⟩ | ⟨-, h2⟩)
        · exact absurd hAB1 (asymm h)
        · exact ⟨(ne_of_lt h).symm, h2⟩
      · rintro ⟨-, h2⟩
        exact Or.inr ⟨h, h2⟩
  · rw [hAB, hBA]
    rintro ⟨⟨h1, -⟩, ⟨h2, -⟩⟩
    exact absurd h2 (asymm h1)

/-- Witness for C3: the symmetric matrix cEx at the feature pair of
severity (index 0) and sleep (index 1). -/
theorem correlation_report_spec_witness :
    ((((0 : Fin 6), (1 : Fin 6)) ∈ analyze_correlations cEx ∨
        ((1 : Fin 6), (0 : Fin 6)) ∈ analyze_correlations cEx) ↔
      ((0 : Fin 6) ≠ (1 : Fin 6) ∧ (0.3 : ℚ) < |cEx 0 1|)) ∧
    ¬ (((0 : Fin 6), (1 : Fin 6)) ∈ analyze_correlations cEx ∧
        ((1 : Fin 6), (0 : Fin 6)) ∈ analyze_correlations cEx) :=
  correlation_report_spec cEx (by decide) 0 1

/-- C4: a value of a column is flagged as an outlier exactly when it
lies below Q1 - 1.5 * IQR or above Q3 + 1.5 * IQR, with Q1 and Q3 the
25th and 75th percentiles and IQR their difference; on the column
[1,2,2,3,3,3,4,4,100] exactly the value 100 is flagged. -/
theorem outlier_detection_spec :
    (∀ (xs : List ℚ) (v : ℚ), isOutlier xs v = true ↔
      (v < quantile xs 0.25 - 1.5 * (quantile xs 0.75 - quantile xs 0.25) ∨
       quantile xs 0.75 + 1.5 * (quantile xs 0.75 - quantile xs 0.25) < v)) ∧
    colEx.filter (fun v => isOutlier colEx v) = [100] ∧
    outlier_count colEx = 1 := by
  have hQ1 : quantile colEx 0.25 = 2 := by
    norm_num [quantile, colEx, sortAsc, insertSorted, nth,
      show Int.toNat 2 = 2 from rfl]
  have hQ3 : quantile colEx 0.75 = 4 := by
    norm_num [quantile, colEx, sortAsc, insertSorted, nth,
      show Int.toNat 6 = 6 from rfl]
  have hout : ∀ v : ℚ, isOutlier colEx v =
      (decide (v < -1) || decide (7 < v)) := by
    intro v
    simp only [isOutlier, hQ1, hQ3]
    norm_num
  have hfil : colEx.filter (fun v => isOutlier colEx v) = [100] := by
    rw [List.filter_congr (fun v _ => hout v)]
    norm_num [colEx, List.filter_cons]
  refine ⟨fun xs v => ?_, hfil, ?_⟩
  · simp [isOutlier, Bool.or_eq_true, decide_eq_true_eq]
  · show (colEx.filter (fun v => isOutlier colEx v)).length = 1
    rw [hfil]
    rfl

/-- C7: every feature row satisfies the three derivation formulas, and
the concrete record with sleep 8, exercise 30 and stress 4 has lifestyle
score (8 + 3 - 4) / 3 = 7/3. -/
theorem derived_features_spec :
    (∀ er : ERecord,
      (featureRowOf er).sleep_stress_ratio =
          (featureRowOf er).sleep / ((featureRowOf er).stress + 0.1) ∧
      (featureRowOf er).exercise_severity_ratio =
          (featureRowOf er).exercise / ((featureRowOf er).severity + 0.1) ∧
      (featureRowOf er).lifestyle_score =
          ((featureRowOf er).sleep + (featureRowOf er).exercise / 10 -
            (featureRowOf er).stress) / 3) ∧
    (featureRowOf (enrichOne pt0 rec0)).lifestyle_score = 7 / 3 := by
  constructor
  · intro er
    exact ⟨rfl, rfl, rfl⟩
  · norm_num [featureRowOf, enrichOne, rec0]

/-- C8 counterexample: a record whose stress is -0.1 makes the
sleep_stress_ratio denominator stress + 0.1 equal to zero, so the claim
that the denominators are nonzero for every record is false. -/
theorem offset_denominator_counterexample :
    rec_neg_stress.stress + (0.1 : ℚ) = 0 ∧
    ¬ ∀ r : Record, r.stress + (0.1 : ℚ) ≠ 0 ∧ r.severity + (0.1 : ℚ) ≠ 0 := by
  have h : rec_neg_stress.stress + (0.1 : ℚ) = 0 := by
    norm_num [rec_neg_stress, rec0]
  exact ⟨h, fun hall => (hall rec_neg_stress).1 h⟩

/-- C8 amended: for every record with nonnegative stress and severity,
the denominators stress + 0.1 and severity + 0.1 are nonzero, so both
divisions are well defined. -/
theorem offset_denominator_amended (r : Record)
    (hs : 0 ≤ r.stress) (hv : 0 ≤ r.severity) :
    r.stress + (0.1 : ℚ) ≠ 0 ∧ r.severity + (0.1 : ℚ) ≠ 0 := by
  constructor <;> intro h <;> linarith

/-- Witness for the amended C8 at the concrete record rec0. -/
theorem offset_denominator_amended_witness :
    (0 : ℚ) ≤ rec0.stress ∧ (0 : ℚ) ≤ rec0.severity ∧
    (rec0.stress + (0.1 : ℚ) ≠ 0 ∧ rec0.severity + (0.1 : ℚ) ≠ 0) :=
  ⟨by norm_num [rec0], by norm_num [rec0],
    offset_denominator_amended rec0 (by norm_num [rec0]) (by norm_num [rec0])⟩

/-- C9 counterexample: on the concrete zero-record dataset, the report
aborts at the basic-statistics reporter (line 66 raises KeyError on the
missing mean entry of an empty object-dtype describe), not at the
demographics reporter, so the claimed divide-by-zero abort mechanism is
not the one of the program: demographics is never reached. -/
theorem empty_dataset_abort_counterexample :
    report_abort pt0 [] = some AbortStage.basicStatistics ∧
    report_abort pt0 [] ≠ some AbortStage.demographics ∧
    analyze_basic_statistics (load_dataset pt0 []) = none :=
  ⟨rfl, by decide, rfl⟩

/-- C9 amended: on a loaded dataset with zero records the report aborts
before printing any demographics summary, but at the basic-statistics
reporter, the first in source order; the demographics reporter itself,
were it applied to the empty table, would indeed fail with the
division by zero in the medical-history percentages. -/
theorem empty_dataset_report_aborts (pt : String → Timestamp) :
    analyze_basic_statistics (load_dataset pt []) = none ∧
    report_abort pt [] = some AbortStage.basicStatistics ∧
    generate_report pt [] = none ∧
    med_hist_pcts (add_age_group (load_dataset pt [])) = none ∧
    analyze_demographics (load_dataset pt []) = none :=
  ⟨rfl, rfl, rfl, rfl, rfl⟩

/-- C10: every table-mutating operation of the report pipeline preserves
the ten original input columns of every record: loading enrichment, the
age_group assignment, the demographics reporter and the temporal
reporter only add derived columns, and a successful full report returns
the input records unchanged in their original fields. -/
theorem original_columns_preserved :
    (∀ (pt : String → Timestamp) (recs : List Record),
        (load_dataset pt recs).map ERecord.base = recs) ∧
    (∀ df : List ERecord,
        (add_age_group df).map ERecord.base = df.map ERecord.base) ∧
    (∀ df df1 : List ERecord, analyze_demographics df = some df1 →
        df1.map ERecord.base = df.map ERecord.base) ∧
    (∀ df : List ERecord,
        (analyze_temporal_patterns df).map ERecord.base = df.map ERecord.base) ∧
    (∀ (pt : String → Timestamp) (recs : List Record) (out : List ERecord),
        generate_report pt recs = some out → out.map ERecord.base = recs) := by
  have hload : ∀ (pt : String → Timestamp) (recs : List Record),
      (load_dataset pt recs).map ERecord.base = recs := by
    intro pt recs
    simp [load_dataset, enrichOne, List.map_map, Function.comp_def]
  have hage : ∀ df : List ERecord,
      (add_age_group df).map ERecord.base = df.map ERecord.base := by
    intro df
    simp [add_age_group, List.map_map, Function.comp_def]
  have hdem : ∀ df df1 : List ERecord, analyze_demographics df = some df1 →
      df1.map ERecord.base = df.map ERecord.base := by
    intro df df1 h
    unfold analyze_demographics at h
    rcases hm : med_hist_pcts (add_age_group df) with - | v
    · rw [hm] at h
      cases h
    · rw [hm] at h
      cases h
      exact hage df
  have htem : ∀ df : List ERecord,
      (analyze_temporal_patterns df).map ERecord.base = df.map ERecord.base := by
    intro df
    simp [analyze_temporal_patterns, List.map_map, Function.comp_def]
  refine ⟨hload, hage, hdem, htem, ?_⟩
  intro pt recs out h
  unfold generate_report at h
  split at h
  · cases h
  · rename_i df0 hb
    split at h
    · cases h
    · rename_i df1 hd
      cases h
      have hb0 : df0 = load_dataset pt recs := by
        simp only [analyze_basic_statistics] at hb
        split_ifs at hb
        all_goals simp_all
      rw [htem df1, hdem _ _ hd, hb0, hload]

/-- Witness for C10: the full report on the one-record dataset [rec0]
succeeds and returns the original record in the base columns. -/
theorem original_columns_preserved_witness :
    out0.map ERecord.base = [rec0] :=
  original_columns_preserved.2.2.2.2 pt0 [rec0] out0 rfl
